import Mathlib

/-!
Verification of the data-diff database adapter core (`data_diff/databases/base.py`)
against its natural-language specification.

The Python source is shallowly embedded: pure helpers become Lean functions,
Python exceptions become `Except` with an explicit error datatype, machine
integers become `Int`/`Nat`, and the dynamic pieces injected at runtime
(the `TYPE_CLASSES` mapping, the `is_uuid` helper, the per-engine
`_convert_db_precision_to_digits` override, database query results) become
explicit parameters.
-/

namespace DataDiff

/-- Python exception kinds raised by the embedded code paths. -/
inductive PyErr where
  | moduleNotFound (msg : String)
  | connectError (msg : String)
  | queryError (msg : String)
  | valueError (msg : String)
  | runtimeError (msg : String)
  | notImplementedError (msg : String)
  | typeError (msg : String)
deriving DecidableEq, Repr

/-- Column types, the tagged-variant reading of `database_types.ColType`:
`Integer`, `Decimal(precision)`, `Float(precision)`, `Temporal(precision,
rounds)`, `Text`, `ColType_UUID`, `UnknownColType(repr)`. -/
inductive ColType where
  | integer
  | decimal (precision : Int)
  | float (precision : Int)
  | temporal (precision : Int) (rounds : Bool)
  | text
  | uuid
  | unknown (typeRepr : String)
deriving DecidableEq, Repr

/-- The classes stored in a dialect's `TYPE_CLASSES` mapping: each concrete
value is a subclass of exactly one of these bases (`TemporalType`, `Integer`,
`Decimal`, `Float`, `Text`). -/
inductive ColClass where
  | temporal
  | integer
  | decimal
  | float
  | text
deriving DecidableEq, Repr

/-- `CHECKSUM_HEXDIGITS = 15  # Must be 15 or lower` -/
def CHECKSUM_HEXDIGITS : Nat := 15

/-- `MD5_HEXDIGITS = 32` -/
def MD5_HEXDIGITS : Nat := 32

/-- `_CHECKSUM_BITSIZE = CHECKSUM_HEXDIGITS << 2` -/
def _CHECKSUM_BITSIZE : Nat := CHECKSUM_HEXDIGITS <<< 2

/-- `CHECKSUM_MASK = (2**_CHECKSUM_BITSIZE) - 1` -/
def CHECKSUM_MASK : Nat := 2 ^ _CHECKSUM_BITSIZE - 1

/-- `DEFAULT_DATETIME_PRECISION = 6` -/
def DEFAULT_DATETIME_PRECISION : Int := 6

/-- `DEFAULT_NUMERIC_PRECISION = 24` -/
def DEFAULT_NUMERIC_PRECISION : Int := 24

/-- `Database._normalize_table_path`: a 1-component path is widened with the
connection default schema when that attribute is truthy (set and non-empty);
a path whose length is neither 1 nor 2 raises `ValueError`; otherwise the
path is returned unchanged. -/
def _normalize_table_path (default_schema : Option String) (path : List String) :
    Except PyErr (List String) :=
  if path.length = 1 then
    match default_schema with
    | some ds => if ds = "" then Except.ok path else Except.ok (ds :: path)
    | none => Except.ok path
  else if path.length ≠ 2 then
    Except.error (PyErr.valueError "Bad table path. Expected form: schema.table")
  else
    Except.ok path

/-- Truthiness of the Python `Optional[int]` argument in `if offset:`. -/
def optIntTruthy : Option Int → Bool
  | none => false
  | some k => k != 0

/-- Rendering of the Python `Optional[int]` inside an f-string. -/
def optIntRepr : Option Int → String
  | none => "None"
  | some n => toString n

/-- `Database.offset_limit`: raises `NotImplementedError` when `offset` is
truthy, else returns the string `LIMIT {limit}`. -/
def offset_limit (offset limit : Option Int) : Except PyErr String :=
  if optIntTruthy offset then
    Except.error (PyErr.notImplementedError "No support for OFFSET in query")
  else
    Except.ok ("LIMIT " ++ optIntRepr limit)

/-- `Database._parse_type`.  The dialect-dependent pieces are parameters:
`type_classes` is the `TYPE_CLASSES` lookup (`_parse_type_repr`), `conv` is
the dynamically dispatched `_convert_db_precision_to_digits`, and
`rounds_on_prec_loss` is the dialect's `ROUNDS_ON_PREC_LOSS` flag. -/
def _parse_type (type_classes : String → Option ColClass) (conv : Int → Int)
    (rounds_on_prec_loss : Bool) (type_repr : String)
    (datetime_precision numeric_precision numeric_scale : Option Int) :
    Except PyErr ColType :=
  match type_classes type_repr with
  | none => Except.ok (ColType.unknown type_repr)
  | some ColClass.temporal =>
      Except.ok (ColType.temporal (datetime_precision.getD DEFAULT_DATETIME_PRECISION)
        rounds_on_prec_loss)
  | some ColClass.integer => Except.ok ColType.integer
  | some ColClass.decimal =>
      match numeric_scale with
      | none => Except.error (PyErr.valueError "Unexpected numeric_scale is NULL")
      | some s => Except.ok (ColType.decimal s)
  | some ColClass.float =>
      Except.ok (ColType.float (conv (numeric_precision.getD DEFAULT_NUMERIC_PRECISION)))
  | some ColClass.text => Except.ok ColType.text

/-- The row sample drawn by `_refine_coltypes` for one text column: the
query carries `limit=16`, so at most the first 16 values of the column are
seen. -/
def sample_values (column_values : List String) : List String :=
  column_values.take 16

/-- The per-column refinement step of `Database._refine_coltypes`:
`uuid_samples = list(filter(is_uuid, samples))`; a nonempty all-UUID sample
turns `Text` into `ColType_UUID`; a mixed sample logs a warning and keeps
`Text`; non-text columns are never touched.  `is_uuid` (from
`data_diff.utils`) is abstracted as a predicate parameter. -/
def refine_coltype (is_uuid : String → Bool) (column_values : List String)
    (c : ColType) : ColType :=
  match c with
  | ColType.text =>
      let samples := sample_values column_values
      let uuid_samples := samples.filter is_uuid
      if uuid_samples.isEmpty then ColType.text
      else if uuid_samples.length ≠ samples.length then ColType.text
      else ColType.uuid
  | other => other

/-- `Database._refine_coltypes` over the whole column dict; `samples_for`
gives the sampled values of each column (the transposed query result). -/
def _refine_coltypes (is_uuid : String → Bool) (samples_for : String → List String)
    (col_dict : List (String × ColType)) : List (String × ColType) :=
  col_dict.map fun p => (p.1, refine_coltype is_uuid (samples_for p.1) p.2)

/-- One row of the `information_schema.columns` query issued by
`select_table_schema`: column name, type representation, and the three
nullable precision fields. -/
structure RawCol where
  name : String
  type_repr : String
  datetime_precision : Option Int
  numeric_precision : Option Int
  numeric_scale : Option Int
deriving DecidableEq, Repr

/-- `Database.query_table_schema`: the schema-query rows are an input (the
database is external).  Empty result raises `RuntimeError`; otherwise the
rows are filtered by `filter_columns` (case-insensitively), parsed with
`_parse_type`, and refined with `_refine_coltypes`. -/
def query_table_schema (type_classes : String → Option ColClass) (conv : Int → Int)
    (rounds_on_prec_loss : Bool) (is_uuid : String → Bool)
    (samples_for : String → List String) (rows : List RawCol)
    (filter_columns : Option (List String)) :
    Except PyErr (List (String × ColType)) :=
  if rows.isEmpty then
    Except.error (PyErr.runtimeError "Table does not exist, or has no columns")
  else do
    let rows2 :=
      match filter_columns with
      | none => rows
      | some fc =>
          let accept := fc.map String.toLower
          rows.filter fun r => accept.contains r.name.toLower
    let col_dict ← rows2.mapM fun r =>
      (_parse_type type_classes conv rounds_on_prec_loss r.type_repr
          r.datetime_precision r.numeric_precision r.numeric_scale).map
        fun t => (r.name, t)
    pure (_refine_coltypes is_uuid samples_for col_dict)

/-- `def _one(seq): (x,) = seq; return x` — Python tuple unpacking raises
`ValueError` unless the sequence has exactly one element. -/
def _one {α : Type} (seq : List α) : Except PyErr α :=
  match seq with
  | [x] => Except.ok x
  | _ => Except.error (PyErr.valueError "expected a sequence of length one")

/-- The `res_type is int` branch of `Database.query`: the raw driver result
is a list of rows, each a list of nullable scalars; the single scalar is
returned, with SQL NULL mapped to Python `None`. -/
def query_int (res : List (List (Option Int))) : Except PyErr (Option Int) := do
  let row ← _one res
  let v ← _one row
  match v with
  | none => pure none
  | some x => pure (some x)

/-- Modelled from the spec: the SQL `SUM` aggregate underlying the checksum
query; `checksum() → int | null` "Returns null for empty segments (SQL
SUM(…) of zero rows)".  The aggregate of zero rows is NULL, otherwise the
sum of the inputs. -/
def sql_sum (xs : List Int) : Option Int :=
  match xs with
  | [] => none
  | _ => some (xs.foldl (· + ·) 0)

/-- Modelled from the spec: `TableSegment.checksum` (in `diff_tables.py`,
outside the provided sources) runs the checksum query and converts the
single scalar through `Database.query` with result type `int`;
`row_hashes` are the per-row 60-bit values being summed. -/
def checksum (row_hashes : List Int) : Except PyErr (Option Int) :=
  query_int [[sql_sum row_hashes]]

/-- The per-worker state of `ThreadedDatabase`: the sticky `_init_error`
slot and the thread-local connection. -/
structure ThreadState (κ : Type) where
  init_error : Option PyErr := none
  conn : Option κ := none

/-- `ThreadedDatabase.set_conn`: runs `create_connection`; a
`ModuleNotFoundError` is captured into `_init_error`; any other exception
propagates out of the initializer; success stores the connection. -/
def set_conn {κ : Type} (create_connection : Except PyErr κ) (s : ThreadState κ) :
    Except PyErr (ThreadState κ) :=
  match create_connection with
  | Except.ok c => Except.ok { s with conn := some c }
  | Except.error (PyErr.moduleNotFound m) =>
      Except.ok { s with init_error := some (PyErr.moduleNotFound m) }
  | Except.error e => Except.error e

/-- `ThreadedDatabase._query_in_worker`: re-raises the captured
initialization error if present, else runs the query on the worker's
connection. -/
def _query_in_worker {κ ρ : Type} (run_query : κ → ρ) (s : ThreadState κ) :
    Except PyErr (Option ρ) :=
  match s.init_error with
  | some e => Except.error e
  | none => Except.ok (s.conn.map run_query)

/-- Round the rational `num / den` (with `den > 0`) to the nearest integer,
ties to even — the behaviour of Python's `round` used by the partitioner
formula. -/
def round_half_even (num den : Int) : Int :=
  let q := Int.ediv num den
  let r := Int.emod num den
  if 2 * r < den then q
  else if den < 2 * r then q + 1
  else if Int.emod q 2 = 0 then q else q + 1

/-- Modelled from the spec: `split_space(lo, hi, n)` of `diff_tables.py` is
not among the provided sources (only its test is); §4.3 gives
`points[i] = lo + round((i+1) * (hi - lo) / (n + 1))` for `i = 0 .. n-1`. -/
def split_space (lo hi : Int) (n : Nat) : List Int :=
  (List.range n).map fun (i : Nat) =>
    lo + round_half_even (((i : Int) + 1) * (hi - lo)) ((n : Int) + 1)

/-- The contract §4.3 / invariant 5 claims for `split_space`: exactly `n`
results, strictly increasing, all strictly inside `(lo, hi)`. -/
def splitSpaceOK (lo hi : Int) (n : Nat) : Prop :=
  (split_space lo hi n).length = n ∧
  (split_space lo hi n).Pairwise (· < ·) ∧
  ∀ x ∈ split_space lo hi n, lo < x ∧ x < hi

instance (lo hi : Int) (n : Nat) : Decidable (splitSpaceOK lo hi n) := by
  unfold splitSpaceOK
  exact inferInstance

end DataDiff

namespace DataDiff

/-- Helper: two-sided bound on the half-even rounding of `num / den`:
`|num/den - round| ≤ 1/2`, cleared of denominators. -/
theorem round_half_even_bounds (num den : Int) (hden : 0 < den) :
    2 * num - den ≤ 2 * den * round_half_even num den ∧
      2 * den * round_half_even num den ≤ 2 * num + den := by
  have hne : den ≠ 0 := by omega
  have hmod : 0 ≤ Int.emod num den := Int.emod_nonneg num hne
  have hlt : Int.emod num den < den := Int.emod_lt_of_pos num hden
  have hdiv : den * Int.ediv num den + Int.emod num den = num := Int.ediv_add_emod num den
  unfold round_half_even
  simp only
  split_ifs <;> constructor <;> nlinarith

/-- Helper: rounding an exact multiple of the denominator is exact. -/
theorem round_half_even_exact (k den : Int) (hden : 0 < den) :
    round_half_even (k * den) den = k := by
  have hne : den ≠ 0 := by omega
  have h1 : Int.emod (k * den) den = 0 := Int.mul_emod_left k den
  have h2 : Int.ediv (k * den) den = k := Int.mul_ediv_cancel k hne
  unfold round_half_even
  simp only
  rw [h1, h2, mul_zero, if_pos hden]

/-- Helper: the rounding of a quotient that is at least 1 is at least 1. -/
theorem round_half_even_pos (num den : Int) (hden : 0 < den) (h : den ≤ num) :
    1 ≤ round_half_even num den := by
  obtain ⟨h1, h2⟩ := round_half_even_bounds num den hden
  nlinarith

/-- Helper: upper bound for the rounding used by the partitioner. -/
theorem round_half_even_upper (num den d : Int) (hden : 0 < den)
    (hnum : num ≤ (den - 1) * d) (hd : den ≤ d) :
    round_half_even num den ≤ d - 1 := by
  obtain ⟨h1, h2⟩ := round_half_even_bounds num den hden
  nlinarith

/-- Helper: numerators more than a denominator apart round to strictly
increasing values. -/
theorem round_half_even_strict_mono (a b den : Int) (hden : 0 < den)
    (hab : a + den + 1 ≤ b) :
    round_half_even a den < round_half_even b den := by
  obtain ⟨ha1, ha2⟩ := round_half_even_bounds a den hden
  obtain ⟨hb1, hb2⟩ := round_half_even_bounds b den hden
  nlinarith

/-- Helper: `split_space` always returns exactly `n` points. -/
theorem split_space_length (lo hi : Int) (n : Nat) :
    (split_space lo hi n).length = n := by
  rw [split_space, List.length_map, List.length_range]

/-- Helper: when the interval is wide enough, every returned point is
strictly inside `(lo, hi)`. -/
theorem split_space_mem_bounds (lo hi : Int) (n : Nat)
    (hwide : (n : Int) + 1 ≤ hi - lo) :
    ∀ x ∈ split_space lo hi n, lo < x ∧ x < hi := by
  intro x hx
  simp only [split_space, List.mem_map, List.mem_range] at hx
  obtain ⟨i, him, rfl⟩ := hx
  have hile : (i : Int) + 1 ≤ (n : Int) := by exact_mod_cast him
  have hi0 : (0 : Int) ≤ (i : Int) := Int.ofNat_nonneg i
  have hm : (0 : Int) < (n : Int) + 1 := by positivity
  have hd0 : (0 : Int) < hi - lo := by omega
  have hlow : (n : Int) + 1 ≤ ((i : Int) + 1) * (hi - lo) := by nlinarith
  have hup : ((i : Int) + 1) * (hi - lo) ≤ (((n : Int) + 1) - 1) * (hi - lo) := by nlinarith
  constructor
  · have := round_half_even_pos (((i : Int) + 1) * (hi - lo)) ((n : Int) + 1) hm (by omega)
    omega
  · have := round_half_even_upper (((i : Int) + 1) * (hi - lo)) ((n : Int) + 1) (hi - lo)
      hm hup hwide
    omega

/-- Helper: when the interval is wide enough, the returned points are
strictly increasing. -/
theorem split_space_pairwise (lo hi : Int) (n : Nat)
    (hwide : (n : Int) + 1 ≤ hi - lo) :
    (split_space lo hi n).Pairwise (· < ·) := by
  rw [split_space, List.pairwise_map, List.pairwise_iff_getElem]
  intro a b h1 h2 hab
  rw [List.length_range] at h1 h2
  rw [List.getElem_range, List.getElem_range]
  have hm : (0 : Int) < (n : Int) + 1 := by positivity
  have hcast : (a : Int) < (b : Int) := by exact_mod_cast hab
  have hb : (b : Int) < (n : Int) := by exact_mod_cast h2
  have ha0 : (0 : Int) ≤ (a : Int) := Int.ofNat_nonneg a
  have key : round_half_even (((a : Int) + 1) * (hi - lo)) ((n : Int) + 1) <
      round_half_even (((b : Int) + 1) * (hi - lo)) ((n : Int) + 1) := by
    rcases eq_or_lt_of_le hwide with heq | hlt
    · rw [← heq, round_half_even_exact ((a : Int) + 1) ((n : Int) + 1) hm,
        round_half_even_exact ((b : Int) + 1) ((n : Int) + 1) hm]
      omega
    · have hd0 : (0 : Int) < hi - lo := by omega
      have hgap : ((a : Int) + 1) * (hi - lo) + ((n : Int) + 1) + 1 ≤
          ((b : Int) + 1) * (hi - lo) := by nlinarith
      exact round_half_even_strict_mono _ _ _ hm hgap
  omega

/-- Claim C1: the checksum domain constants define a 60-bit checksum:
`_CHECKSUM_BITSIZE = 60`, `CHECKSUM_MASK = 2^60 - 1`, and every value
reduced by the mask lies in `[0, 2^60)`. -/
theorem checksum_constants_define_60_bits :
    _CHECKSUM_BITSIZE = 60 ∧ CHECKSUM_MASK = 2 ^ 60 - 1 ∧
      ∀ v : Nat, v &&& CHECKSUM_MASK < 2 ^ 60 := by
  refine ⟨rfl, rfl, fun v => ?_⟩
  have h1 : v &&& CHECKSUM_MASK ≤ CHECKSUM_MASK := Nat.and_le_right
  have h2 : CHECKSUM_MASK < 2 ^ 60 := by
    show 2 ^ 60 - 1 < 2 ^ 60
    omega
  exact Nat.lt_of_le_of_lt h1 h2

/-- Claim C2, counterexample: at `lo = 0`, `hi = 2`, `n = 2` (which satisfy
`lo < hi` and `n ≥ 1`) the partitioner cannot meet the stated contract —
`split_space 0 2 2 = [1, 1]` is not strictly increasing (indeed no two
distinct integers lie strictly between 0 and 2). -/
theorem split_space_claim_counterexample : ¬ splitSpaceOK 0 2 2 := by decide

/-- Claim C2, amended: for `n ≥ 1` and an interval wide enough to contain
`n` interior integers (`hi - lo ≥ n + 1`), `split_space lo hi n` returns
exactly `n` strictly increasing integers, all strictly between `lo` and
`hi`. -/
theorem split_space_contract (lo hi : Int) (n : Nat) (h1 : 1 ≤ n)
    (h2 : (n : Int) + 1 ≤ hi - lo) : splitSpaceOK lo hi n :=
  ⟨split_space_length lo hi n, split_space_pairwise lo hi n h2,
    split_space_mem_bounds lo hi n h2⟩

/-- Witness for the amended claim C2 at `lo = 0`, `hi = 10`, `n = 3`
(where `split_space 0 10 3 = [2, 5, 8]`). -/
theorem split_space_contract_witness :
    1 ≤ 3 ∧ ((3 : Nat) : Int) + 1 ≤ 10 - 0 ∧ splitSpaceOK 0 10 3 :=
  ⟨by decide, by decide, split_space_contract 0 10 3 (by decide) (by decide)⟩

/-- Claim C3, counterexample: on a connection with no default schema
(`default_schema = None`, the base-class default), a path of length 1 is
returned unchanged as a 1-tuple, not as any pair `(default_schema, table)`. -/
theorem normalize_table_path_claim_counterexample :
    ¬ ∃ s : String, _normalize_table_path none ["t"] = Except.ok [s, "t"] := by
  rintro ⟨s, h⟩
  simp [_normalize_table_path] at h

/-- Claim C3, amended: a path of more than 2 components raises `ValueError`;
a path of length 1 becomes `(default_schema, table)` when the connection has
a non-empty default schema, and is returned unchanged (still of length 1)
when the default schema is unset or empty; a path of length 2 is returned
unchanged. -/
theorem normalize_table_path_behavior (ds : Option String) (s t x y z : String)
    (rest : List String) :
    _normalize_table_path ds (x :: y :: z :: rest) =
      Except.error (PyErr.valueError "Bad table path. Expected form: schema.table") ∧
    (s ≠ "" → _normalize_table_path (some s) [t] = Except.ok [s, t]) ∧
    _normalize_table_path none [t] = Except.ok [t] ∧
    _normalize_table_path (some "") [t] = Except.ok [t] ∧
    _normalize_table_path ds [s, t] = Except.ok [s, t] := by
  refine ⟨?_, ?_, ?_, ?_, ?_⟩
  · simp [_normalize_table_path]
  · intro h
    simp [_normalize_table_path, h]
  · simp [_normalize_table_path]
  · simp [_normalize_table_path]
  · cases ds <;> simp [_normalize_table_path]

/-- Witness for the amended claim C3: a single-component path against a
connection whose default schema is `public`. -/
theorem normalize_table_path_behavior_witness :
    _normalize_table_path (some "public") ["events"] = Except.ok ["public", "events"] :=
  (normalize_table_path_behavior (some "public") "public" "events" "a" "b" "c" []).2.1
    (by decide)

/-- Claim C4: at most 16 values of a text column are sampled, and a text
column is reclassified to `ColType_UUID` exactly when at least one sampled
value is a UUID and every sampled value is a UUID; a mixed sample keeps
`Text`; non-text columns are never modified. -/
theorem refine_coltypes_uuid_detection (is_uuid : String → Bool) (vals : List String) :
    (sample_values vals).length ≤ 16 ∧
    (refine_coltype is_uuid vals ColType.text = ColType.uuid ↔
      ((∃ s ∈ sample_values vals, is_uuid s = true) ∧
        ∀ s ∈ sample_values vals, is_uuid s = true)) ∧
    (((∃ s ∈ sample_values vals, is_uuid s = true) ∧
        (∃ s ∈ sample_values vals, is_uuid s = false)) →
      refine_coltype is_uuid vals ColType.text = ColType.text) := by
  refine ⟨List.length_take_le 16 vals, ?_, ?_⟩
  · unfold refine_coltype
    simp only
    by_cases h1 : ((sample_values vals).filter is_uuid).isEmpty
    · rw [if_pos h1]
      have hnil : (sample_values vals).filter is_uuid = [] := by
        simpa [List.isEmpty_iff] using h1
      rw [List.filter_eq_nil_iff] at hnil
      constructor
      · intro h
        exact ColType.noConfusion h
      · rintro ⟨⟨s, hs, hu⟩, -⟩
        exact absurd hu (hnil s hs)
    · rw [if_neg h1]
      by_cases h2 : ((sample_values vals).filter is_uuid).length =
          (sample_values vals).length
      · rw [if_neg (not_ne_iff.mpr h2)]
        rw [List.filter_length_eq_length] at h2
        constructor
        · intro _
          refine ⟨?_, h2⟩
          have hne : (sample_values vals).filter is_uuid ≠ [] := by
            intro hnil
            rw [hnil] at h1
            exact h1 rfl
          obtain ⟨s, hs⟩ := List.exists_mem_of_ne_nil _ hne
          obtain ⟨hmem, hu⟩ := List.mem_filter.mp hs
          exact ⟨s, hmem, hu⟩
        · intro _
          rfl
      · rw [if_pos h2]
        constructor
        · intro h
          exact ColType.noConfusion h
        · rintro ⟨-, hall⟩
          exact absurd (List.filter_length_eq_length.mpr hall) h2
  · rintro ⟨⟨s1, hs1, hu1⟩, ⟨s2, hs2, hu2⟩⟩
    unfold refine_coltype
    simp only
    have hmem : s1 ∈ (sample_values vals).filter is_uuid :=
      List.mem_filter.mpr ⟨hs1, hu1⟩
    have hne : (sample_values vals).filter is_uuid ≠ [] := List.ne_nil_of_mem hmem
    rw [if_neg (by simpa [List.isEmpty_iff] using hne)]
    have hlen : ((sample_values vals).filter is_uuid).length ≠
        (sample_values vals).length := by
      rw [Ne, List.filter_length_eq_length]
      intro hall
      have := hall s2 hs2
      rw [hu2] at this
      exact Bool.noConfusion this
    rw [if_pos hlen]

/-- Witness for claim C4: a mixed sample (one UUID-shaped value, one not)
keeps the column as `Text`. -/
theorem refine_coltypes_uuid_detection_witness :
    refine_coltype (fun s => s == "u") ["u", "x"] ColType.text = ColType.text :=
  (refine_coltypes_uuid_detection (fun s => s == "u") ["u", "x"]).2.2
    ⟨⟨"u", by simp [sample_values], by decide⟩, ⟨"x", by simp [sample_values], by decide⟩⟩

/-- Claim C6: with result type `int`, `Database.query` maps the SQL NULL
scalar to `None` and any other scalar to its integer value; composed with
the `SUM` aggregate this makes `checksum` null exactly on empty segments. -/
theorem query_int_null_behavior (v : Int) (row_hashes : List Int) :
    query_int [[none]] = Except.ok none ∧
    query_int [[some v]] = Except.ok (some v) ∧
    (checksum row_hashes = Except.ok none ↔ row_hashes = []) := by
  refine ⟨rfl, rfl, ?_⟩
  cases row_hashes with
  | nil => exact ⟨fun _ => rfl, fun _ => rfl⟩
  | cons a t =>
      constructor
      · intro h
        exact absurd (Except.ok.inj h) (by simp)
      · intro h
        exact List.noConfusion h

/-- Witness for claim C6: the checksum of an empty segment is null. -/
theorem query_int_null_behavior_witness : checksum [] = Except.ok none :=
  (query_int_null_behavior 0 []).2.2.mpr rfl

/-- Claim C7, counterexample: `if offset:` tests Python truthiness, so the
negative offset `-1` — which is not greater than 0 — still raises
`NotImplementedError` instead of returning the pagination clause. -/
theorem offset_limit_claim_counterexample :
    offset_limit (some (-1)) (some 10) =
      Except.error (PyErr.notImplementedError "No support for OFFSET in query") ∧
    ¬ (0 : Int) < -1 := by
  exact ⟨rfl, by decide⟩

/-- Claim C7, amended: `offset_limit` raises `NotImplementedError` exactly
when `offset` is provided and nonzero; otherwise it returns the clause
`LIMIT {limit}`. -/
theorem offset_limit_rejects_nonzero_offset (offset limit : Option Int) :
    ((∃ e, offset_limit offset limit = Except.error e) ↔
      ∃ k, offset = some k ∧ k ≠ 0) ∧
    ((offset = none ∨ offset = some 0) →
      offset_limit offset limit = Except.ok ("LIMIT " ++ optIntRepr limit)) := by
  cases offset with
  | none =>
      refine ⟨?_, fun _ => rfl⟩
      simp [offset_limit, optIntTruthy]
  | some k =>
      by_cases hk : k = 0
      · subst hk
        refine ⟨?_, fun _ => rfl⟩
        simp [offset_limit, optIntTruthy]
      · constructor
        · simp only [offset_limit, optIntTruthy]
          rw [if_pos (by simpa using hk)]
          simp [hk]
        · rintro (h | h)
          · exact Option.noConfusion h
          · exact absurd (Option.some.injEq k 0 ▸ congrArg id h) (by simpa using hk)

/-- Witness for the amended claim C7: no offset returns the LIMIT clause. -/
theorem offset_limit_rejects_nonzero_offset_witness :
    offset_limit none (some 5) = Except.ok ("LIMIT " ++ optIntRepr (some 5)) :=
  (offset_limit_rejects_nonzero_offset none (some 5)).2 (Or.inl rfl)

/-- Claim C8, counterexample: only `ModuleNotFoundError` is caught by
`set_conn`; an initialization failure of any other kind (here a
`ConnectError`) is not captured into `_init_error` — it escapes the
initializer, so no subsequent query re-raises it as the claim states. -/
theorem threaded_init_claim_counterexample :
    set_conn (Except.error (PyErr.connectError "boom"))
        (⟨none, none⟩ : ThreadState Unit) =
      Except.error (PyErr.connectError "boom") ∧
    ¬ ∃ s2 : ThreadState Unit,
        set_conn (Except.error (PyErr.connectError "boom"))
            (⟨none, none⟩ : ThreadState Unit) = Except.ok s2 ∧
          _query_in_worker (fun c : Unit => c) s2 =
            Except.error (PyErr.connectError "boom") := by
  refine ⟨rfl, ?_⟩
  rintro ⟨s2, h, -⟩
  simp [set_conn] at h

/-- Claim C8, amended: when per-worker connection initialization fails with
`ModuleNotFoundError`, `set_conn` captures it into `_init_error` and every
subsequent query routed through `_query_in_worker` re-raises exactly that
captured error instead of executing. -/
theorem threaded_init_error_sticky {κ ρ : Type} (m : String) (s s2 : ThreadState κ)
    (h : set_conn (Except.error (PyErr.moduleNotFound m)) s = Except.ok s2)
    (run_query : κ → ρ) :
    s2.init_error = some (PyErr.moduleNotFound m) ∧
    _query_in_worker run_query s2 = Except.error (PyErr.moduleNotFound m) := by
  simp only [set_conn, Except.ok.injEq] at h
  subst h
  exact ⟨rfl, rfl⟩

/-- Witness for the amended claim C8: a missing-driver error is sticky and
re-raised on a later query. -/
theorem threaded_init_error_sticky_witness :
    (⟨some (PyErr.moduleNotFound "no module named psycopg2"), none⟩ :
        ThreadState Unit).init_error =
      some (PyErr.moduleNotFound "no module named psycopg2") ∧
    _query_in_worker (fun c : Unit => c)
        (⟨some (PyErr.moduleNotFound "no module named psycopg2"), none⟩ :
          ThreadState Unit) =
      Except.error (PyErr.moduleNotFound "no module named psycopg2") :=
  threaded_init_error_sticky "no module named psycopg2" ⟨none, none⟩
    ⟨some (PyErr.moduleNotFound "no module named psycopg2"), none⟩ rfl
    (fun c : Unit => c)

/-- Claim C9: when the schema query returns no rows, `query_table_schema`
raises `RuntimeError` — not `QueryError` and not `ValueError`. -/
theorem query_table_schema_empty_raises_runtime
    (type_classes : String → Option ColClass) (conv : Int → Int)
    (rounds_on_prec_loss : Bool) (is_uuid : String → Bool)
    (samples_for : String → List String) (filter_columns : Option (List String)) :
    query_table_schema type_classes conv rounds_on_prec_loss is_uuid samples_for
        [] filter_columns =
      Except.error (PyErr.runtimeError "Table does not exist, or has no columns") ∧
    (∀ m, query_table_schema type_classes conv rounds_on_prec_loss is_uuid samples_for
        [] filter_columns ≠ Except.error (PyErr.queryError m)) ∧
    (∀ m, query_table_schema type_classes conv rounds_on_prec_loss is_uuid samples_for
        [] filter_columns ≠ Except.error (PyErr.valueError m)) := by
  refine ⟨rfl, ?_, ?_⟩ <;> intro m h <;> simp [query_table_schema] at h

/-- Witness for claim C9: a concrete empty schema query raises the
runtime error. -/
theorem query_table_schema_empty_raises_runtime_witness :
    query_table_schema (fun _ => none) (fun p => p) true (fun _ => false)
        (fun _ => []) [] none =
      Except.error (PyErr.runtimeError "Table does not exist, or has no columns") :=
  (query_table_schema_empty_raises_runtime (fun _ => none) (fun p => p) true
    (fun _ => false) (fun _ => []) none).1

/-- Claim C10: a column whose type representation parses to a `Decimal`
class raises `ValueError` when `numeric_scale` is NULL, instead of building
a column type with a default scale. -/
theorem parse_type_decimal_null_scale_raises
    (type_classes : String → Option ColClass) (conv : Int → Int)
    (rounds_on_prec_loss : Bool) (type_repr : String)
    (datetime_precision numeric_precision : Option Int)
    (h : type_classes type_repr = some ColClass.decimal) :
    _parse_type type_classes conv rounds_on_prec_loss type_repr
        datetime_precision numeric_precision none =
      Except.error (PyErr.valueError "Unexpected numeric_scale is NULL") := by
  unfold _parse_type
  rw [h]

/-- Witness for claim C10: a `TYPE_CLASSES` table mapping `numeric` to the
`Decimal` class, queried with a NULL `numeric_scale`. -/
theorem parse_type_decimal_null_scale_witness :
    _parse_type (fun s => if s = "numeric" then some ColClass.decimal else none)
        (fun p => p) true "numeric" none none none =
      Except.error (PyErr.valueError "Unexpected numeric_scale is NULL") :=
  parse_type_decimal_null_scale_raises
    (fun s => if s = "numeric" then some ColClass.decimal else none)
    (fun p => p) true "numeric" none none (by simp)

end DataDiff
